import Mathlib

/-!
Shallow embedding of the Hoiax water-heater device driver
(src/unnamed/part_000 and src/drivers/hiax-connected-200/device.js).

Numbers are modelled as exact rationals (the JS sources compute in IEEE
doubles; every concrete input used below is exactly representable and far
from any rounding boundary, so the rational and double computations agree).
JS `NaN` / non-numeric inputs are modelled as `none : Option ℚ`.
The `toFixed(1)` / `toFixed(2)` decimal roundings store their results as
strings in the source; since those strings are only ever compared for
equality and coerced back to numbers, they are modelled as integer counts
of tenths / hundredths.  `toFixed` resolves ties by picking the larger
candidate, i.e. it is floor (x + 1/2) at the chosen scale.
-/

/-! ### Retry gate
Model of the `while (!response || response.ok === false) { try ... catch
{ setUnavailable(...); await sleep(10s) } }` loops (src/unnamed/part_000
lines 72-81, 110-118, 266-274, 340-348, 513-523).  One `Attempt` is the
outcome of one `setDevicePoint` call: it either throws or returns a
result with an `ok` flag.  `retryLoop` consumes attempts until the first
`ok` result and reports (number of calls made, number of `setUnavailable`
calls, number of 10-second sleeps); it returns `none` when the attempt
list is exhausted without success (the real loop would still be running).
-/

inductive Attempt
  | throws
  | result (ok : Bool)
deriving DecidableEq, Repr

def isFail : Attempt → Bool
  | .throws => true
  | .result ok => !ok

def retryLoop : List Attempt → Option (Nat × Nat × Nat)
  | [] => none
  | .throws :: rest => (retryLoop rest).map (fun r => (r.1 + 1, r.2.1 + 1, r.2.2 + 1))
  | .result false :: rest => (retryLoop rest).map (fun r => (r.1 + 1, r.2.1, r.2.2))
  | .result true :: _ => some (1, 0, 0)

/-! ### setHeaterState (src/unnamed/part_000 lines 68-99)
State and effects of the command dispatcher.  `setHeaterStateAck` is the
post-acknowledgment block (steps 2-4 of the source): capability updates,
the edge-triggered max-power-changed event (fired iff the new level
differs from the cached `this.max_power`; the comparison is on the level,
the wattage is only the event token), and the internal-state update.
`setHeaterStateRun` wraps it in the retry loop; the written point is
id 517 with value `turnOn ? newPower : 0`.
-/

structure HeaterState where
  is_on : Bool
  max_power : ℚ
  HeaterNomPower : ℚ
  HeaterNomPower2 : ℚ
  capOnoff : Option Bool
  capMaxPower : Option String
  available : Bool
deriving DecidableEq, Repr

structure ShsEffects where
  writeAttempts : Nat
  writtenPoint : ℤ × ℚ
  unavailCount : Nat
  sleepCount : Nat
  triggerFired : Bool
  triggerWatt : Option ℚ
deriving DecidableEq, Repr

def powerTextOf (newPower : ℚ) : String :=
  if newPower = 1 then "low_power" else if newPower = 2 then "medium_power" else "high_power"

def powerWattOf (s : HeaterState) (newPower : ℚ) : ℚ :=
  if newPower = 1 then s.HeaterNomPower
  else if newPower = 2 then s.HeaterNomPower2
  else s.HeaterNomPower + s.HeaterNomPower2

def setHeaterStateAck (s : HeaterState) (turnOn : Bool) (newPower : ℚ) :
    HeaterState × ShsEffects :=
  let fired := decide (newPower ≠ s.max_power)
  ({ s with is_on := turnOn, max_power := newPower,
            capOnoff := some turnOn, capMaxPower := some (powerTextOf newPower),
            available := true },
   { writeAttempts := 0,
     writtenPoint := (517, if turnOn then newPower else 0),
     unavailCount := 0, sleepCount := 0,
     triggerFired := fired,
     triggerWatt := if fired then some (powerWattOf s newPower) else none })

def setHeaterStateRun (attempts : List Attempt) (s : HeaterState) (turnOn : Bool)
    (newPower : ℚ) : Option (HeaterState × ShsEffects) :=
  match retryLoop attempts with
  | none => none
  | some (w, u, sl) =>
    let r := setHeaterStateAck s turnOn newPower
    some (r.1, { r.2 with writeAttempts := w, unavailCount := u, sleepCount := sl })

/-- Model of the `case 517` branch of `updateState` (src/unnamed/part_000
lines 560-572): the observed requested power `v` first updates
`this.is_on` / `this.max_power` (0 means off, the cached level is kept),
then `setHeaterState` is invoked unconditionally with the updated local
state. -/
def updateState517 (s : HeaterState) (v : ℚ) (attempts : List Attempt) :
    Option (HeaterState × ShsEffects) :=
  let s1 := if v = 0 then { s with is_on := false } else { s with is_on := true, max_power := v }
  setHeaterStateRun attempts s1 s1.is_on s1.max_power

/-! ### logLeakage, Strategy A (src/unnamed/part_000 lines 455-499) -/

/-- Daily leak-relation metric, src/unnamed/part_000 line 493:
`(addedEnergy > leakedEnergy) ? ((100 * leakedEnergy) / addedEnergy) : 100`.
Division by zero yields 0 here where JS yields -Infinity; both are below
the saturation bound and the branch with a zero divisor is only reachable
with `leakedEnergy < 0`. -/
def leakRelationOf (leakedEnergy addedEnergy : ℚ) : ℚ :=
  if addedEnergy > leakedEnergy then (100 * leakedEnergy) / addedEnergy else 100

structure P0State where
  outsideTemp : ℚ
  leakageConstant : ℚ
  accumulatedLeakage : ℚ
  prevAccumTime : ℚ
  storePrevAccumTime : ℚ
  storeAccumulatedLeakage : ℚ
  prevRelationTime : Option ℚ
  prevRelationUse : ℚ
  prevRelationLeak : ℚ
  capLeak : Option ℚ
  capLeakAccum : Option ℚ
  capLeakRelation : Option ℚ
deriving DecidableEq, Repr

/-- Model of `logLeakage` of src/unnamed/part_000 (lines 455-499).  The
boolean result is true iff the call threw.  The validity check on the
three telemetry values happens before any field is assigned, so the
throwing branch returns the state unchanged.  The `!Number.isNaN(+timedLeakage)`
guard of line 467 is always true in this model because `prevAccumTime`
and the inputs of the non-throwing branch are valid numbers. -/
def logLeakageP0 (s : P0State) (totalUsage temperature inTank : Option ℚ)
    (newTime : ℚ) : P0State × Bool :=
  match totalUsage, temperature, inTank with
  | some tu, some te, some _it =>
    let outerTempDiff := te - s.outsideTemp
    let accumTimeDiff := newTime - s.prevAccumTime
    let currentLeakage := s.leakageConstant * outerTempDiff
    let timedLeakage := currentLeakage * accumTimeDiff / (60 * 60 * 1000000)
    let s1 := { s with
      prevAccumTime := newTime,
      accumulatedLeakage := s.accumulatedLeakage + timedLeakage,
      capLeak := some currentLeakage,
      capLeakAccum := some (s.accumulatedLeakage + timedLeakage) }
    let s2 := if newTime - s1.storePrevAccumTime > 24 * 60 * 60 * 1000 then
        { s1 with storePrevAccumTime := newTime,
                  storeAccumulatedLeakage := s1.accumulatedLeakage }
      else s1
    let s3 := match s2.prevRelationTime with
      | none =>
        { s2 with prevRelationTime := some newTime, prevRelationUse := tu,
                  prevRelationLeak := s2.accumulatedLeakage }
      | some prt =>
        if newTime - prt > 24 * 60 * 60 * 1000 then
          { s2 with prevRelationTime := some newTime, prevRelationUse := tu,
                    prevRelationLeak := s2.accumulatedLeakage,
                    capLeakRelation := some (leakRelationOf
                      (s2.accumulatedLeakage - s2.prevRelationLeak) (tu - s2.prevRelationUse)) }
        else s2
    (s3, false)
  | _, _, _ => (s, true)

/-! ### logLeakage, Strategy B (src/drivers/hiax-connected-200/device.js
lines 307-458)
Samples store `powDiff.toFixed(1)`, `tempDiff.toFixed(1)`,
`storeDiff.toFixed(2)` and `outerTempDiff.toFixed(1)` as strings; they are
modelled as integer tenths / hundredths (see the header note), `timeDiff`
is kept as a raw number.
-/

def toFixed1 (x : ℚ) : ℤ := ⌊10 * x + 1 / 2⌋

def toFixed2 (x : ℚ) : ℤ := ⌊100 * x + 1 / 2⌋

structure Sample where
  powDiffT : ℤ
  tempDiffT : ℤ
  timeDiff : ℚ
  storeDiffH : ℤ
  outerTempDiffT : ℤ
deriving DecidableEq, Repr

/-- Histogram inclusion test of device.js line 359:
`powDiff == 0 && tempDiff <= 0`. -/
def qualifies (p : Sample) : Bool := p.powDiffT == 0 && decide (p.tempDiffT ≤ 0)

/-- Count of one histogram bin (`temp_diffs[key]`, device.js lines 358-367). -/
def countKey (buf : List Sample) (k : ℤ) : Nat :=
  (buf.filter (fun p => qualifies p && p.tempDiffT == k)).length

def includeCount (buf : List Sample) : Nat := (buf.filter qualifies).length

/-- Histogram keys in first-insertion order (JS object key order for these
non-integer string keys). -/
def histKeys (buf : List Sample) : List ℤ :=
  buf.foldl (fun acc p =>
    if qualifies p && !(acc.contains p.tempDiffT) then acc ++ [p.tempDiffT] else acc) []

def insertByCount (c : ℤ → Nat) (k : ℤ) : List ℤ → List ℤ
  | [] => [k]
  | a :: rest => if c a < c k then k :: a :: rest else a :: insertByCount c k rest

/-- Keys sorted by descending bin count; stable, like
`keys.sort(function(a,b)\x7breturn temp_diffs[b]-temp_diffs[a]\x7d)`
(device.js line 370). -/
def sortedKeys (buf : List Sample) : List ℤ :=
  (histKeys buf).foldl (fun acc k => insertByCount (countKey buf) k acc) []

/-- Neighbour-bin selection, device.js lines 386-415: look at the bins
0.1 below and above `key0`; a key is "in temp_diffs" iff its count is
non-zero. -/
def neighborChoice (buf : List Sample) (k0 : ℤ) : Option ℤ × Option ℤ :=
  let c := countKey buf
  let k1a := k0 - 1
  let k1b := k0 + 1
  if c k1a = 0 ∧ c k1b = 0 then (some k0, none)
  else if c k1a = 0 then (some k0, some k1b)
  else if c k1b = 0 then (some k0, some k1a)
  else if c k1b ≤ c k1a then
    (if 2 * c k1b < c k1a then (some k0, some k1a) else (none, none))
  else
    (if 2 * c k1a < c k1b then (some k0, some k1b) else (none, none))

/-- Gate logic of device.js lines 372-416 applied to the sorted key list:
returns the accepted `(key0, key1)`, where `(none, none)` means fall back
on the old constant. -/
def chooseAux (buf : List Sample) : List ℤ → Option ℤ × Option ℤ
  | [] => (none, none)
  | k0 :: rest =>
    if includeCount buf = 0 ∨ countKey buf k0 < 10 then (none, none)
    else
      match rest with
      | k1 :: _ =>
        if (k1 - k0).natAbs ≠ 1 then
          if countKey buf k0 < 3 * countKey buf k1 then (none, none) else (some k0, none)
        else neighborChoice buf k0
      | [] => neighborChoice buf k0

def chooseKeys (buf : List Sample) : Option ℤ × Option ℤ := chooseAux buf (sortedKeys buf)

structure DevState where
  prevPower : Option ℚ
  prevTemp : Option ℚ
  prevStored : Option ℚ
  prevTime : Option ℚ
  pastLeakage : List Sample
  prevAccumTime : ℚ
  currentLeakage : ℚ
  leakageConstant : ℚ
  accumulatedLeakage : ℚ
  outsideTemp : ℚ
  tankVolume : ℚ
  capLeak : Option ℚ
  capLeakAccum : Option ℚ
deriving DecidableEq, Repr

/-- Deltas of the incoming poll against the previous one, device.js lines
324-339 (the `getD 0` defaults are never reached: the main path requires
the previous values to be present). -/
def mkSample (s : DevState) (tu te it newTime : ℚ) : Sample :=
  { powDiffT := toFixed1 (tu - s.prevPower.getD 0),
    tempDiffT := toFixed1 (te - s.prevTemp.getD 0),
    timeDiff := newTime - (s.prevTime.getD 0),
    storeDiffH := toFixed2 (it - s.prevStored.getD 0),
    outerTempDiffT := toFixed1 (te - s.outsideTemp) }

/-- Ring-buffer push of device.js lines 340-344 (capacity `LOGITEMS = 200`,
newest entry at index 0). -/
def pushedBuf (s : DevState) (tu te it newTime : ℚ) : List Sample :=
  (mkSample s tu te it newTime :: s.pastLeakage).take 200

/-- Implied-constant numerator of device.js lines 431-436: iterate the whole
log and add `-tempDiff * 1e6 / (outerTempDiff * timeDiff)` for every entry
whose (rounded) tempDiff equals `key0` or `key1`. -/
def tempDropVal (buf : List Sample) (key0 : ℤ) (key1 : Option ℤ) : ℚ :=
  buf.foldl (fun acc p =>
    if p.tempDiffT = key0 ∨ some p.tempDiffT = key1 then
      acc - (((p.tempDiffT : ℚ) / 10) * 1000000) / (((p.outerTempDiffT : ℚ) / 10) * p.timeDiff)
    else acc) 0

/-- Accumulation tail of device.js lines 445-457 (instantaneous loss,
lifetime energy, capability publishes). -/
def leakTail (s : DevState) (newTime outerTempDiff : ℚ) : DevState × Bool :=
  let accumTimeDiff := newTime - s.prevAccumTime
  let cl := s.leakageConstant * outerTempDiff
  ({ s with prevAccumTime := newTime, currentLeakage := cl,
            accumulatedLeakage := s.accumulatedLeakage + cl * accumTimeDiff / (60 * 60 * 1000000),
            capLeak := some cl,
            capLeakAccum := some (s.accumulatedLeakage + cl * accumTimeDiff / (60 * 60 * 1000000)) },
   false)

/-- Model of `logLeakage` of src/drivers/hiax-connected-200/device.js
(lines 307-458).  The boolean result is true iff the call threw.  The
`isNaN` validity check precedes every assignment, so the throwing branch
returns the state unchanged.  On the reject path, the
`isNaN(this.currentLeakage) || this.currentLeakage == 0` early return of
line 425-426 is modelled by the `= 0` test (no NaN in the rational model). -/
def logLeakageDev (s : DevState) (totalUsage temperature inTank : Option ℚ)
    (newTime : ℚ) : DevState × Bool :=
  match totalUsage, temperature, inTank with
  | some tu, some te, some it =>
    if s.prevPower = none ∨ s.prevTemp = none ∨ s.prevStored = none then
      ({ s with prevPower := some tu, prevTemp := some te, prevStored := some it,
                prevTime := some newTime }, false)
    else
      let buf := pushedBuf s tu te it newTime
      let s1 := { s with prevPower := some tu, prevTemp := some te, prevStored := some it,
                         prevTime := some newTime, pastLeakage := buf }
      match chooseKeys buf with
      | (none, _) =>
        if s1.currentLeakage = 0 then (s1, false)
        else leakTail s1 newTime (te - s.outsideTemp)
      | (some k0, key1) =>
        let cnt := countKey buf k0 + (match key1 with | none => 0 | some k1 => countKey buf k1)
        let newLc := 4.187 * tempDropVal buf k0 key1 * s1.tankVolume / (cnt : ℚ)
        leakTail { s1 with leakageConstant := 0.99 * s1.leakageConstant + 0.01 * newLc }
          newTime (te - s.outsideTemp)
  | _, _, _ => (s, true)

/-- Default leakage constant seeded by `onOAuth2Init` of device.js line 145. -/
def initLeakageConstant : ℚ := 12.696

/-- Default tank volume seeded by `onOAuth2Init` of device.js line 149. -/
def initTankVolume : ℚ := 178

/-! ### Settings and spot-price firmware flag (src/unnamed/part_000) -/

/-- Setting-name to parameter-id table of src/unnamed/part_000 lines 33-49. -/
def keyMap : List (String × ℤ) :=
  [("ambient_temperature", 100), ("inlet_temperature", 101), ("max_water_flow", 512),
   ("regulation_diff", 516), ("legionella_frequency", 511), ("controling_device", 500),
   ("nordpool_price_region", 544), ("num_expensive_hours", 545), ("min_remain_heat", 546),
   ("num_cheap_hours", 547), ("temp_inc_cheap_hours", 548), ("TankVolume", 526),
   ("SerialNo", 518), ("HeaterNomPower", 503), ("HeaterNomPower2", 504)]

def keyMapLookup (name : String) : Option ℤ :=
  (keyMap.find? (fun e => e.1 == name)).map (fun e => e.2)

/-- Detection of broken spot-price firmware, src/unnamed/part_000 lines
252-257: start from `true` and clear the flag when some enumerated legal
value of the heater-mode point equals the string 6. -/
def brokenSpotPriceOf (enumValues : List String) : Bool :=
  enumValues.foldl (fun b v => if v = "6" then false else b) true

/-- Point ids written by one `onSettings` call (src/unnamed/part_000 lines
504-512): a changed key contributes its mapped id unless the firmware is
broken and the id lies in 544..548; a changed key missing from `keyMap`
contributes the JS key "undefined", modelled as `none`. -/
def onSettingsWrittenKeys (broken : Bool) (changedKeys : List String) : List (Option ℤ) :=
  changedKeys.filterMap (fun k =>
    match keyMapLookup k with
    | some id => if broken ∧ 544 ≤ id ∧ id ≤ 548 then none else some (some id)
    | none => some none)

/-- Coercion of the `controling_device` setting in `toSettings`
(src/unnamed/part_000 lines 132-136): with broken spot-price firmware a
value of 6 (price control) is replaced by 8 (Homey control). -/
def toSettingsControlingDevice (broken : Bool) (cd : String) : String :=
  if broken ∧ cd = "6" then "8" else cd

/-! ### setAmbientTemp (src/unnamed/part_000 lines 101-120) -/

structure AmbState where
  outsideTemp : ℚ
  settingAmbient : Option ℚ
  available : Bool
deriving DecidableEq, Repr

structure AmbEffects where
  settingsWrites : Nat
  writeAttempts : Nat
  unavailCount : Nat
  sleepCount : Nat
deriving DecidableEq, Repr

def ambNoEffects : AmbEffects :=
  { settingsWrites := 0, writeAttempts := 0, unavailCount := 0, sleepCount := 0 }

/-- Model of `setAmbientTemp`: NaN input (`none`) or input equal to the
stored `outsideTemp` returns before any effect; otherwise the setting is
persisted, `outsideTemp` updated, the point write of id 100 retried to
success, and the device marked available. -/
def setAmbientTemp (s : AmbState) (ambientTemp : Option ℚ) (attempts : List Attempt) :
    Option (AmbState × AmbEffects) :=
  if ambientTemp = none ∨ ambientTemp = some s.outsideTemp then
    some (s, ambNoEffects)
  else
    match retryLoop attempts with
    | none => none
    | some (w, u, sl) =>
      some ({ s with settingAmbient := some (ambientTemp.getD 0),
                     outsideTemp := ambientTemp.getD 0, available := true },
            { settingsWrites := 1, writeAttempts := w, unavailCount := u, sleepCount := sl })

/-! ### Concrete states used by the claim instances -/

def c1State : HeaterState :=
  { is_on := true, max_power := 3, HeaterNomPower := 700, HeaterNomPower2 := 1300,
    capOnoff := none, capMaxPower := none, available := true }

def c2State : HeaterState :=
  { is_on := true, max_power := 2, HeaterNomPower := 700, HeaterNomPower2 := 1300,
    capOnoff := some true, capMaxPower := some "medium_power", available := true }

def c3State : P0State :=
  { outsideTemp := 24, leakageConstant := 0, accumulatedLeakage := -3,
    prevAccumTime := 0, storePrevAccumTime := 172800001, storeAccumulatedLeakage := 0,
    prevRelationTime := some 0, prevRelationUse := 5, prevRelationLeak := 0,
    capLeak := none, capLeakAccum := none, capLeakRelation := none }

def c4State : P0State :=
  { outsideTemp := 24, leakageConstant := 1.58, accumulatedLeakage := 5,
    prevAccumTime := 0, storePrevAccumTime := 3600000000, storeAccumulatedLeakage := 0,
    prevRelationTime := none, prevRelationUse := 0, prevRelationLeak := 0,
    capLeak := none, capLeakAccum := none, capLeakRelation := none }

def c5P0State : P0State :=
  { outsideTemp := 24, leakageConstant := 1.58, accumulatedLeakage := 7,
    prevAccumTime := 0, storePrevAccumTime := 0, storeAccumulatedLeakage := 0,
    prevRelationTime := none, prevRelationUse := 0, prevRelationLeak := 0,
    capLeak := none, capLeakAccum := none, capLeakRelation := none }

def c5DevState : DevState :=
  { prevPower := some 10, prevTemp := some 70, prevStored := some 3, prevTime := some 0,
    pastLeakage := [], prevAccumTime := 0, currentLeakage := 0,
    leakageConstant := initLeakageConstant, accumulatedLeakage := 0,
    outsideTemp := 24, tankVolume := initTankVolume, capLeak := none, capLeakAccum := none }

def c7Sample : Sample :=
  { powDiffT := 0, tempDiffT := -3, timeDiff := 300000, storeDiffH := 0, outerTempDiffT := 100 }

def c7State : DevState :=
  { prevPower := some 1000, prevTemp := some 60.3, prevStored := some 5,
    prevTime := some 700000,
    pastLeakage := List.replicate 19 c7Sample,
    prevAccumTime := 0, currentLeakage := 0, leakageConstant := initLeakageConstant,
    accumulatedLeakage := 0, outsideTemp := 50, tankVolume := initTankVolume,
    capLeak := none, capLeakAccum := none }

def c8SampleA : Sample :=
  { powDiffT := 0, tempDiffT := -5, timeDiff := 300000, storeDiffH := 0, outerTempDiffT := 100 }

def c8SampleB : Sample :=
  { powDiffT := 0, tempDiffT := -2, timeDiff := 300000, storeDiffH := 0, outerTempDiffT := 100 }

def c8State : DevState :=
  { prevPower := some 1000, prevTemp := some 60.5, prevStored := some 5,
    prevTime := some 700000,
    pastLeakage := List.replicate 14 c8SampleA ++ List.replicate 5 c8SampleB,
    prevAccumTime := 0, currentLeakage := 0, leakageConstant := 12.696,
    accumulatedLeakage := 0, outsideTemp := 50, tankVolume := 178,
    capLeak := none, capLeakAccum := none }

def c10State : AmbState :=
  { outsideTemp := 24, settingAmbient := some 24, available := true }

/-! ### Helper lemmas -/

theorem retryLoop_append_success (fails : List Attempt)
    (h : ∀ a ∈ fails, isFail a = true) :
    retryLoop (fails ++ [Attempt.result true]) =
      some (fails.length + 1, fails.count Attempt.throws, fails.count Attempt.throws) := by
  induction fails with
  | nil => rfl
  | cons a rest ih =>
    have ha : isFail a = true := h a (by simp)
    have hrest : ∀ b ∈ rest, isFail b = true := fun b hb => h b (by simp [hb])
    cases a with
    | throws =>
      simp [retryLoop, ih hrest, List.count_cons]
    | result ok =>
      cases ok with
      | false =>
        simp [retryLoop, ih hrest, List.count_cons]
      | true => simp [isFail] at ha

/-- C1: the claim as stated is false on the code.  With exactly one failed
attempt that returned a result with ok = false, the retry loop around the
point write of setHeaterState performs zero setUnavailable transitions and
zero 10-second sleeps, not one of each: the sleep and the availability
toggle live in the catch branch only, so they happen for throwing attempts
but not for ok=false results. -/
theorem c1_okfalse_no_sleep_counterexample :
    (setHeaterStateRun [Attempt.result false, Attempt.result true] c1State true 2).map
        (fun r => (r.2.unavailCount, r.2.sleepCount)) = some (0, 0) ∧
    ¬ ((setHeaterStateRun [Attempt.result false, Attempt.result true] c1State true 2).map
        (fun r => (r.2.unavailCount, r.2.sleepCount)) = some (1, 1)) := by
  constructor
  · rfl
  · intro hcontra
    simp [setHeaterStateRun, retryLoop] at hcontra

/-- C1 (amended): if the wrapped operation fails N times (throwing or
returning ok=false) and then succeeds, the wrapper performs the
post-success block exactly once and finishes with availability true, but
it sets availability to false and sleeps the fixed 10-second interval
once per THROWING attempt only; attempts that merely returned ok=false
are retried immediately with no sleep and no availability transition. -/
theorem c1_retry_gate_behavior (fails : List Attempt)
    (h : ∀ a ∈ fails, isFail a = true)
    (s : HeaterState) (turnOn : Bool) (newPower : ℚ) :
    ∃ s2 eff, setHeaterStateRun (fails ++ [Attempt.result true]) s turnOn newPower =
        some (s2, eff) ∧
      (s2, { eff with writeAttempts := 0, unavailCount := 0, sleepCount := 0 }) =
        setHeaterStateAck s turnOn newPower ∧
      eff.unavailCount = fails.count Attempt.throws ∧
      eff.sleepCount = fails.count Attempt.throws ∧
      eff.writeAttempts = fails.length + 1 ∧
      s2.available = true := by
  refine ⟨(setHeaterStateAck s turnOn newPower).1,
    { (setHeaterStateAck s turnOn newPower).2 with
        writeAttempts := fails.length + 1,
        unavailCount := fails.count Attempt.throws,
        sleepCount := fails.count Attempt.throws }, ?_, ?_, rfl, rfl, rfl, rfl⟩
  · simp [setHeaterStateRun, retryLoop_append_success fails h]
  · simp [setHeaterStateAck]

/-- C1 (amended) witness: one throwing attempt and one ok=false attempt
before success give exactly one availability-false transition and one
sleep, three write attempts, and end available. -/
theorem c1_retry_gate_behavior_witness :
    ∃ s2 eff, setHeaterStateRun
        ([Attempt.throws, Attempt.result false] ++ [Attempt.result true]) c1State true 2 =
        some (s2, eff) ∧
      (s2, { eff with writeAttempts := 0, unavailCount := 0, sleepCount := 0 }) =
        setHeaterStateAck c1State true 2 ∧
      eff.unavailCount = [Attempt.throws, Attempt.result false].count Attempt.throws ∧
      eff.sleepCount = [Attempt.throws, Attempt.result false].count Attempt.throws ∧
      eff.writeAttempts = [Attempt.throws, Attempt.result false].length + 1 ∧
      s2.available = true :=
  c1_retry_gate_behavior [Attempt.throws, Attempt.result false] (by decide) c1State true 2

/-- C2: the claim as stated is false on the code.  On a poll tick whose
response carries parameter 517 with a value equal to the cached local
level (here both are level 2), updateState still re-invokes
setHeaterState, which performs a point write of id 517 — the
re-application is unconditional, not gated on a level mismatch. -/
theorem c2_matched_level_still_writes_counterexample :
    c2State.max_power = 2 ∧
    (updateState517 c2State 2 [Attempt.result true]).map
        (fun r => (r.2.writeAttempts, r.2.writtenPoint)) = some (1, 517, 2) := by
  constructor
  · rfl
  · rfl

/-- C2 (amended): on every poll tick whose response contains parameter 517,
setHeaterState is re-invoked unconditionally — even when the observed
requested power equals the cached level — so the point write of id 517
repeats on every tick; the observed value still reconciles local state
(0 turns the heater off keeping the cached level, a non-zero value is
adopted as the level), and the re-application never fires the
max-power-changed trigger because the cache is updated before the
comparison. -/
theorem c2_poll_always_reapplies (s : HeaterState) (v : ℚ) :
    ∃ s2 eff, updateState517 s v [Attempt.result true] = some (s2, eff) ∧
      eff.writeAttempts = 1 ∧
      eff.writtenPoint = (517, if v = 0 then 0 else v) ∧
      eff.triggerFired = false ∧
      s2.is_on = decide (v ≠ 0) ∧
      s2.max_power = (if v = 0 then s.max_power else v) := by
  by_cases hv : v = 0 <;>
    simp [updateState517, setHeaterStateRun, retryLoop, setHeaterStateAck, hv] <;>
    exact ⟨_, _, ⟨rfl, rfl⟩, rfl, rfl, rfl, rfl, rfl⟩

/-- C6: the max-power-changed trigger is edge-triggered on the level value:
a call fires it iff the requested level differs from the previously cached
max_power (independently of the wattage table), and a second call with the
same level never fires, so two successive same-level calls produce exactly
one event when the first changes the level and zero otherwise. -/
theorem c6_edge_trigger (s : HeaterState) (turnOn1 turnOn2 : Bool) (newPower : ℚ) :
    (setHeaterStateAck s turnOn1 newPower).2.triggerFired = decide (newPower ≠ s.max_power) ∧
    (setHeaterStateAck (setHeaterStateAck s turnOn1 newPower).1 turnOn2 newPower).2.triggerFired
      = false ∧
    ((if (setHeaterStateAck s turnOn1 newPower).2.triggerFired then 1 else 0) +
     (if (setHeaterStateAck (setHeaterStateAck s turnOn1 newPower).1 turnOn2
          newPower).2.triggerFired then 1 else 0)
       = if newPower = s.max_power then 0 else 1) := by
  refine ⟨rfl, ?_, ?_⟩
  · simp [setHeaterStateAck]
  · by_cases h : newPower = s.max_power <;> simp [setHeaterStateAck, h]

/-- C3: the claim as stated is false on the code.  With a negative added
energy in the period (leaked = -3, added = -1, reachable e.g. after a
meter reset and a spell with the tank colder than ambient), the relation
branch publishes 100 * (-3) / (-1) = 300 > 100: the ternary only clips
when added <= leaked, which does not bound the quotient for negative
added energy. -/
theorem c3_leak_relation_counterexample :
    (logLeakageP0 c3State (some 4) (some 24) (some 5) 172800001).1.capLeakRelation
      = some 300 ∧ ¬ ((300 : ℚ) ≤ 100) := by
  constructor
  · norm_num [logLeakageP0, c3State, leakRelationOf]
  · norm_num

/-- C3 (amended): the daily leak-relation metric is
100 * leakedEnergyInPeriod / addedEnergyInPeriod, clipped to 100 whenever
added <= leaked, and the published value never exceeds 100 provided the
added energy of the period is non-negative (the energy meter did not run
backwards); for negative added energy the value can exceed 100. -/
theorem c3_leak_relation_saturation (leakedEnergy addedEnergy : ℚ) :
    leakRelationOf leakedEnergy addedEnergy =
      (if addedEnergy > leakedEnergy then (100 * leakedEnergy) / addedEnergy else 100) ∧
    (0 ≤ addedEnergy → leakRelationOf leakedEnergy addedEnergy ≤ 100) := by
  refine ⟨rfl, fun h => ?_⟩
  unfold leakRelationOf
  split
  · rename_i hgt
    rcases lt_or_eq_of_le h with hpos | hzero
    · rw [div_le_iff₀ hpos]
      nlinarith
    · rw [← hzero, div_zero]
      norm_num
  · exact le_refl 100

/-- C3 (amended) witness at leaked = 5, added = 10: the published relation
is at most 100. -/
theorem c3_leak_relation_saturation_witness :
    leakRelationOf 5 10 ≤ 100 :=
  (c3_leak_relation_saturation 5 10).2 (by norm_num)

/-- C4: the claim as stated is false on the code.  A successful update with
the tank temperature (20) below the ambient temperature (24) makes the
timed leakage negative and strictly decreases accumulatedLeakage (from 5
to -1.32), so the accumulator is not monotone over all valid inputs. -/
theorem c4_accum_decrease_counterexample :
    (logLeakageP0 c4State (some 100) (some 20) (some 5) 3600000000).2 = false ∧
    (logLeakageP0 c4State (some 100) (some 20) (some 5) 3600000000).1.accumulatedLeakage
      < c4State.accumulatedLeakage := by
  constructor
  · rfl
  · norm_num [logLeakageP0, c4State]

/-- C4 (amended): across successful Strategy-A estimator updates the
accumulator is non-decreasing provided the leakage constant is
non-negative, the reported tank temperature is at least the ambient
temperature, and time does not run backwards; a tank colder than ambient
(or a clock step backwards) legitimately decreases it. -/
theorem c4_accum_monotone (s : P0State) (tu te it newTime : ℚ)
    (hk : 0 ≤ s.leakageConstant) (ht : s.outsideTemp ≤ te)
    (htime : s.prevAccumTime ≤ newTime) :
    s.accumulatedLeakage ≤
      (logLeakageP0 s (some tu) (some te) (some it) newTime).1.accumulatedLeakage := by
  have h0 : 0 ≤ s.leakageConstant * (te - s.outsideTemp) * (newTime - s.prevAccumTime) /
      (60 * 60 * 1000000) := by
    apply div_nonneg
    · apply mul_nonneg
      · apply mul_nonneg hk
        linarith
      · linarith
    · norm_num
  simp only [logLeakageP0]
  repeat' split
  all_goals try dsimp only
  all_goals linarith

/-- C4 (amended) witness: with constant 1.58, ambient 24, tank 30 and one
hour elapsed, the accumulator does not decrease. -/
theorem c4_accum_monotone_witness :
    c4State.accumulatedLeakage ≤
      (logLeakageP0 c4State (some 100) (some 30) (some 5) 3600000).1.accumulatedLeakage :=
  c4_accum_monotone c4State 100 30 5 3600000 (by norm_num [c4State])
    (by norm_num [c4State]) (by norm_num [c4State])

/-- C5: a logLeakage call in which any of total usage, temperature or
stored energy is not a valid number throws before any assignment, in both
driver variants: the call reports failure and every field — leakage
constant, accumulator, previous-sample baselines, histogram buffer and
published leak capabilities — is exactly as before. -/
theorem c5_invalid_input_rejected (s : P0State) (d : DevState)
    (totalUsage temperature inTank : Option ℚ) (newTime devNewTime : ℚ)
    (h : totalUsage = none ∨ temperature = none ∨ inTank = none) :
    logLeakageP0 s totalUsage temperature inTank newTime = (s, true) ∧
    logLeakageDev d totalUsage temperature inTank devNewTime = (d, true) := by
  cases totalUsage <;> cases temperature <;> cases inTank <;>
    first
      | exact ⟨rfl, rfl⟩
      | simp at h

/-- C5 witness: a NaN temperature is rejected and both states are left
unchanged. -/
theorem c5_invalid_input_rejected_witness :
    logLeakageP0 c5P0State (some 100) none (some 5) 60000 = (c5P0State, true) ∧
    logLeakageDev c5DevState (some 100) none (some 5) 60000 = (c5DevState, true) :=
  c5_invalid_input_rejected c5P0State c5DevState (some 100) none (some 5) 60000 60000
    (Or.inr (Or.inl rfl))

/-- C10: calling setAmbientTemp with a NaN value, or with a value equal to
the stored ambient temperature, returns before any effect: no settings
write, no network write attempt, no sleep, no availability change, and
the state (outsideTemp, persisted setting, availability flag) is returned
unchanged — for any sequence of would-be network outcomes. -/
theorem c10_ambient_early_return (s : AmbState) (ambientTemp : Option ℚ)
    (attempts : List Attempt)
    (h : ambientTemp = none ∨ ambientTemp = some s.outsideTemp) :
    setAmbientTemp s ambientTemp attempts = some (s, ambNoEffects) := by
  unfold setAmbientTemp
  rw [if_pos h]

/-- C10 witness: the stored ambient temperature 24 sent again is a no-op. -/
theorem c10_ambient_early_return_witness :
    setAmbientTemp c10State (some 24) [Attempt.throws] = some (c10State, ambNoEffects) :=
  c10_ambient_early_return c10State (some 24) [Attempt.throws] (Or.inr rfl)

/-! ### Evaluation lemmas for the concrete estimator scenarios -/

theorem c7MkEval : mkSample c7State 1000 60 5 1000000 = c7Sample := by
  simp only [mkSample, c7State, c7Sample, toFixed1, toFixed2]
  norm_num

theorem c7BufEval : pushedBuf c7State 1000 60 5 1000000 = List.replicate 20 c7Sample := by
  rw [pushedBuf, c7MkEval]
  rw [show c7State.pastLeakage = List.replicate 19 c7Sample from rfl]
  rw [List.take_of_length_le (by simp)]
  simp [List.replicate_succ]

theorem c7KeysEval : chooseKeys (List.replicate 20 c7Sample) = (some (-3), none) := by decide

theorem c7CountEval : countKey (List.replicate 20 c7Sample) (-3) = 20 := by decide

theorem c7DropEval : tempDropVal (List.replicate 20 c7Sample) (-3) none = 2 := by
  norm_num [tempDropVal, List.replicate, c7Sample]

theorem c7LcEval :
    (logLeakageDev c7State (some 1000) (some 60) (some 5) 1000000).1.leakageConstant =
      0.99 * 12.696 + 0.01 * (4.187 * 178 * ((0.3 * 1000000) / (10 * 300000))) := by
  simp only [logLeakageDev]
  rw [if_neg (by simp [c7State])]
  rw [c7BufEval, c7KeysEval]
  simp only [leakTail]
  rw [c7CountEval, c7DropEval]
  norm_num [c7State, initLeakageConstant, initTankVolume]

/-- C7: starting from the init defaults leakageConstant = 12.696 and
tankVolume = 178, with 19 buffered qualifying samples of
tempDelta = -0.3, outerTempDiff = 10, elapsed = 300000 ms, powerDelta = 0
and one more poll producing the identical 20th sample, the modal bin -0.3
has count 20 (the gate 20 >= 10 passes and accepts it alone), and the
update sets leakageConstant to 0.99*12.696 + 0.01*k_implied with
k_implied = 4.187 * 178 * (0.3 * 1e6 / (10 * 300000)); the result lies
strictly between 12.696 and k_implied. -/
theorem c7_estimator_scenario :
    countKey (pushedBuf c7State 1000 60 5 1000000) (-3) = 20 ∧
    chooseKeys (pushedBuf c7State 1000 60 5 1000000) = (some (-3), none) ∧
    (logLeakageDev c7State (some 1000) (some 60) (some 5) 1000000).1.leakageConstant =
      0.99 * 12.696 + 0.01 * (4.187 * 178 * ((0.3 * 1000000) / (10 * 300000))) ∧
    12.696 < (logLeakageDev c7State (some 1000) (some 60) (some 5) 1000000).1.leakageConstant ∧
    (logLeakageDev c7State (some 1000) (some 60) (some 5) 1000000).1.leakageConstant <
      4.187 * 178 * ((0.3 * 1000000) / (10 * 300000)) := by
  refine ⟨by rw [c7BufEval]; exact c7CountEval, by rw [c7BufEval]; exact c7KeysEval,
    c7LcEval, ?_, ?_⟩
  · rw [c7LcEval]
    norm_num
  · rw [c7LcEval]
    norm_num

theorem c8MkEval : mkSample c8State 1000 60 5 1000000 = c8SampleA := by
  simp only [mkSample, c8State, c8SampleA, toFixed1, toFixed2]
  norm_num

theorem c8BufEval : pushedBuf c8State 1000 60 5 1000000 =
    List.replicate 15 c8SampleA ++ List.replicate 5 c8SampleB := by
  rw [pushedBuf, c8MkEval]
  rw [show c8State.pastLeakage
      = List.replicate 14 c8SampleA ++ List.replicate 5 c8SampleB from rfl]
  rw [List.take_of_length_le (by simp)]
  simp [List.replicate_succ]

theorem c8KeysEval : chooseKeys (List.replicate 15 c8SampleA ++ List.replicate 5 c8SampleB) =
    (some (-5), none) := by decide

theorem c8Cnt5Eval :
    countKey (List.replicate 15 c8SampleA ++ List.replicate 5 c8SampleB) (-5) = 15 := by decide

theorem c8Cnt2Eval :
    countKey (List.replicate 15 c8SampleA ++ List.replicate 5 c8SampleB) (-2) = 5 := by decide

theorem c8SortedEval :
    sortedKeys (List.replicate 15 c8SampleA ++ List.replicate 5 c8SampleB) = [-5, -2] := by
  decide

theorem c8DropEval :
    tempDropVal (List.replicate 15 c8SampleA ++ List.replicate 5 c8SampleB) (-5) none
      = 5 / 2 := by
  simp only [tempDropVal, List.replicate, c8SampleA, c8SampleB, List.foldl_cons,
    List.foldl_nil, List.cons_append, List.nil_append, Option.some_ne_none, or_false]
  norm_num

theorem c8LcEval :
    (logLeakageDev c8State (some 1000) (some 60) (some 5) 1000000).1.leakageConstant =
      0.99 * 12.696 + 0.01 * (4.187 * (5 / 2) * 178 / 15) := by
  simp only [logLeakageDev]
  rw [if_neg (by simp [c8State])]
  rw [c8BufEval, c8KeysEval]
  simp only [leakTail]
  rw [c8Cnt5Eval, c8DropEval]
  norm_num [c8State]

/-- C8: the claim as stated is false on the code.  With a modal bin of 15
samples at tempDelta -0.5 and a non-adjacent second bin of 5 samples at
-0.2 (counts exactly 3:1), the reject test count0 < 3*count1 is 15 < 15,
which is false, so the modal bin is ACCEPTED alone and the leakage
constant is updated away from 12.696 — the claim demanded rejection at
exact equality. -/
theorem c8_triple_count_counterexample :
    countKey (pushedBuf c8State 1000 60 5 1000000) (-5) = 15 ∧
    countKey (pushedBuf c8State 1000 60 5 1000000) (-2) = 5 ∧
    sortedKeys (pushedBuf c8State 1000 60 5 1000000) = [-5, -2] ∧
    (15 : Nat) = 3 * 5 ∧
    chooseKeys (pushedBuf c8State 1000 60 5 1000000) = (some (-5), none) ∧
    c8State.leakageConstant = 12.696 ∧
    (logLeakageDev c8State (some 1000) (some 60) (some 5) 1000000).1.leakageConstant
      ≠ 12.696 := by
  refine ⟨by rw [c8BufEval]; exact c8Cnt5Eval, by rw [c8BufEval]; exact c8Cnt2Eval,
    by rw [c8BufEval]; exact c8SortedEval, by norm_num,
    by rw [c8BufEval]; exact c8KeysEval, rfl, ?_⟩
  rw [c8LcEval]
  norm_num

theorem histKeysFoldlOfNoQual (buf : List Sample) (acc : List ℤ)
    (h : ∀ p ∈ buf, qualifies p = false) :
    buf.foldl (fun acc p =>
      if qualifies p && !(acc.contains p.tempDiffT) then acc ++ [p.tempDiffT] else acc) acc
      = acc := by
  induction buf generalizing acc with
  | nil => rfl
  | cons p rest ih =>
    have hp := h p (by simp)
    simp only [List.foldl_cons, hp, Bool.false_and, Bool.false_eq_true, if_false]
    exact ih acc (fun q hq => h q (by simp [hq]))

theorem sortedKeysNonemptyInclude (buf : List Sample) (h : sortedKeys buf ≠ []) :
    includeCount buf ≠ 0 := by
  intro h0
  apply h
  have hfil : buf.filter qualifies = [] := List.length_eq_zero.1 h0
  have hq : ∀ p ∈ buf, qualifies p = false := by
    intro p hp
    cases hqp : qualifies p with
    | false => rfl
    | true =>
      have hmem : p ∈ buf.filter qualifies := List.mem_filter.2 ⟨hp, hqp⟩
      rw [hfil] at hmem
      exact absurd hmem (List.not_mem_nil p)
  have hk : histKeys buf = [] := histKeysFoldlOfNoQual buf [] hq
  rw [sortedKeys, hk]
  rfl

/-- C8 (amended): when a second-most-frequent bin key1 exists that is not
adjacent (within one tenth) to the modal bin key0 and key0 has at least 10
samples, key0 is accepted alone iff count(key0) >= 3*count(key1): the code
rejects only when count(key0) < 3*count(key1), so the boundary case
count(key0) = 3*count(key1) is accepted, not rejected; and whenever the
gate rejects, the update leaves the previous leakageConstant unchanged. -/
theorem c8_nonadjacent_gate (buf : List Sample) (k0 k1 : ℤ) (rest : List ℤ)
    (hs : sortedKeys buf = k0 :: k1 :: rest)
    (hadj : (k1 - k0).natAbs ≠ 1)
    (hc : 10 ≤ countKey buf k0) :
    chooseKeys buf =
      (if countKey buf k0 < 3 * countKey buf k1 then (none, none) else (some k0, none)) ∧
    ∀ (d : DevState) (tu te it newTime : ℚ),
      chooseKeys (pushedBuf d tu te it newTime) = (none, none) →
      (logLeakageDev d (some tu) (some te) (some it) newTime).1.leakageConstant =
        d.leakageConstant := by
  constructor
  · have hinc : includeCount buf ≠ 0 := sortedKeysNonemptyInclude buf (by rw [hs]; simp)
    rw [chooseKeys, hs]
    simp only [chooseAux]
    rw [if_neg (by push_neg; exact ⟨hinc, by omega⟩)]
    rw [if_pos hadj]
  · intro d tu te it newTime hnone
    by_cases hprev : d.prevPower = none ∨ d.prevTemp = none ∨ d.prevStored = none
    · simp only [logLeakageDev, if_pos hprev]
    · simp only [logLeakageDev, if_neg hprev, hnone]
      split <;> simp [leakTail]

/-- C8 (amended) witness: the 15-versus-5 buffer satisfies the gate
hypotheses, and since 15 < 3*5 is false the modal bin is accepted alone. -/
theorem c8_nonadjacent_gate_witness :
    (chooseKeys (pushedBuf c8State 1000 60 5 1000000) =
      (if countKey (pushedBuf c8State 1000 60 5 1000000) (-5) <
          3 * countKey (pushedBuf c8State 1000 60 5 1000000) (-2)
        then (none, none) else (some (-5), none))) ∧
    ∀ (d : DevState) (tu te it newTime : ℚ),
      chooseKeys (pushedBuf d tu te it newTime) = (none, none) →
      (logLeakageDev d (some tu) (some te) (some it) newTime).1.leakageConstant =
        d.leakageConstant :=
  c8_nonadjacent_gate (pushedBuf c8State 1000 60 5 1000000) (-5) (-2) []
    (by rw [c8BufEval]; exact c8SortedEval) (by decide)
    (by rw [c8BufEval, c8Cnt5Eval]; norm_num)

theorem brokenSpotPriceOfNotMem (l : List String) (hl : "6" ∉ l) :
    brokenSpotPriceOf l = true := by
  induction l with
  | nil => rfl
  | cons v rest ih =>
    have hv : v ≠ "6" := fun hv => hl (by simp [hv])
    have hrest : "6" ∉ rest := fun hr => hl (by simp [hr])
    simp only [brokenSpotPriceOf, List.foldl_cons]
    rw [if_neg hv]
    exact ih hrest

/-- C9: if the heater-mode enumerated legal values do not contain the
string 6, the broken-spot-price flag is set; every onSettings call then
filters every changed key mapping to a price-control id 544..548 out of
the point write (ids outside that band or unknown keys pass through), and
toSettings coerces a controling_device value of 6 to 8 before persisting;
since the flag is computed once at init and never reassigned, the
price-control settings stay disabled for the device lifetime. -/
theorem c9_broken_spot_price (enumValues changedKeys : List String)
    (h : "6" ∉ enumValues) :
    brokenSpotPriceOf enumValues = true ∧
    (∀ oid ∈ onSettingsWrittenKeys (brokenSpotPriceOf enumValues) changedKeys,
      ∀ n : ℤ, oid = some n → ¬(544 ≤ n ∧ n ≤ 548)) ∧
    (∀ cd : String, toSettingsControlingDevice (brokenSpotPriceOf enumValues) cd =
      if cd = "6" then "8" else cd) := by
  have hb : brokenSpotPriceOf enumValues = true := brokenSpotPriceOfNotMem enumValues h
  refine ⟨hb, ?_, ?_⟩
  · intro oid hmem n hn hrange
    rw [hb] at hmem
    rcases List.mem_filterMap.1 hmem with ⟨k, -, hk⟩
    revert hk
    cases hkm : keyMapLookup k with
    | none =>
      intro hk
      dsimp only at hk
      have hoid : oid = none := (Option.some.inj hk).symm
      rw [hoid] at hn
      exact Option.noConfusion hn
    | some id =>
      intro hk
      dsimp only at hk
      by_cases hrg : 544 ≤ id ∧ id ≤ 548
      · rw [if_pos ⟨rfl, hrg⟩] at hk
        exact Option.noConfusion hk
      · rw [if_neg (fun hcon => hrg hcon.2)] at hk
        have hoid : oid = some id := (Option.some.inj hk).symm
        rw [hoid] at hn
        have hni : id = n := Option.some.inj hn
        rw [← hni] at hrange
        exact hrg hrange
  · intro cd
    simp [toSettingsControlingDevice, hb]

/-- C9 witness: firmware enumerating only modes 1 and 8 sets the broken
flag, blocks price-control writes for changed keys including
nordpool_price_region, and coerces controling_device 6 to 8. -/
theorem c9_broken_spot_price_witness :
    brokenSpotPriceOf ["1", "8"] = true ∧
    (∀ oid ∈ onSettingsWrittenKeys (brokenSpotPriceOf ["1", "8"])
        ["nordpool_price_region", "ambient_temperature"],
      ∀ n : ℤ, oid = some n → ¬(544 ≤ n ∧ n ≤ 548)) ∧
    (∀ cd : String, toSettingsControlingDevice (brokenSpotPriceOf ["1", "8"]) cd =
      if cd = "6" then "8" else cd) :=
  c9_broken_spot_price ["1", "8"] ["nordpool_price_region", "ambient_temperature"] (by decide)
